import Mathlib

/-!
Shallow embedding of `check-lighthouse-regressions.js`: the Lighthouse
regression-detection script of the undrr-speedlify repository.  JSON
values that can appear as scores are modelled by `JValue`; a results
document (snapshot) is an association list from site hash to `SiteData`;
the metrics CSV file is modelled as an optional list of lines (`none`
meaning the file does not exist).  JavaScript numbers are modelled by
rationals.
-/

/-- A JSON value appearing as a metric score: a number or a non-number
(represented by a string, the case the script warns about). -/
inductive JValue where
  | num (q : ℚ)
  | str (s : String)
deriving DecidableEq, Repr

/-- A lighthouse score object: metric key to value, as stored in the
results JSON. -/
abbrev Lighthouse := List (String × JValue)

/-- JavaScript property access `obj[key]`: the value under the key, or
`none` when the property is absent. -/
def jsGet {α : Type} (l : List (String × α)) (k : String) : Option α :=
  (l.find? (fun p => p.1 == k)).map (fun p => p.2)

/-- One site's entry in a results document: `url` (optional) and the
`lighthouse` score object (absent when the site has no audit data). -/
structure SiteData where
  url : Option String
  lighthouse : Option Lighthouse
deriving DecidableEq, Repr

/-- A results document: top-level keys are site hashes. -/
abbrev Snapshot := List (String × SiteData)

/-- `METRICS_TO_CHECK` from the script: the tracked comparison metrics. -/
def METRICS_TO_CHECK : List String := ["performance", "accessibility"]

/-- JavaScript `parseInt(s, 10)`: skip leading whitespace, optional sign,
read leading decimal digits; `none` models `NaN` (no digits). -/
def jsParseInt (s : String) : Option Int :=
  let cs := s.toList.dropWhile (fun c => c == ' ' || c == '\t' || c == '\n' || c == '\r')
  let signed : Int × List Char :=
    match cs with
    | '-' :: r => (-1, r)
    | '+' :: r => (1, r)
    | r => (1, r)
  let ds := signed.2.takeWhile Char.isDigit
  if ds.isEmpty then none
  else some (signed.1 * (ds.foldl (fun a c => a * 10 + (c.toNat - '0'.toNat)) 0 : Nat))

/-- `REGRESSION_THRESHOLD_PERCENT = parseInt(process.env…, 10) || 10`:
the parsed value when truthy, else the default 10 (`NaN` and `0` are
both falsy in JavaScript). -/
def regressionThresholdPercent (env : Option String) : Int :=
  match env.bind jsParseInt with
  | some n => if n = 0 then 10 else n
  | none => 10

/-- `THRESHOLD_DECIMAL = REGRESSION_THRESHOLD_PERCENT / 100`. -/
def thresholdDecimalOf (env : Option String) : ℚ :=
  (regressionThresholdPercent env : ℚ) / 100

/-- JavaScript truthiness of a CLI path argument: absent (`undefined`)
and the empty string are falsy. -/
def argPresent (a : Option String) : Bool :=
  match a with
  | some s => !(s == "")
  | none => false

/-- One cell of a CSV row before joining: either a number (stringified on
join) or a literal string (possibly empty). -/
inductive Cell where
  | numCell (q : ℚ)
  | strCell (s : String)
deriving DecidableEq, Repr

/-- `siteData.lighthouse.metric || ''`: a truthy value passes through,
any falsy value (absent metric, the number 0, the empty string) becomes
the empty string. -/
def scoreCell : Option JValue → Cell
  | some (JValue.num q) => if q = 0 then Cell.strCell "" else Cell.numCell q
  | some (JValue.str s) => Cell.strCell s
  | none => Cell.strCell ""

/-- The `headers` array of `writeToCsv` (line 70 of the script). -/
def headers : List String :=
  ["timestamp", "site_url", "site_hash", "performance", "accessibility", "best-practices", "seo"]

/-- A line of the metrics CSV file: the header line or a data row. -/
inductive CsvLine where
  | header (cols : List String)
  | row (cells : List Cell)
deriving DecidableEq, Repr

/-- `const siteUrl = siteData.url || siteHash`. -/
def siteUrlOf (hash : String) (d : SiteData) : String :=
  match d.url with
  | some u => if u = "" then hash else u
  | none => hash

/-- The `row` array built by `writeToCsv` for one site (lines 87-95):
timestamp, quoted URL, hash, then the four metric cells, each guarded by
`|| ''`; note the best-practices value is read under the camelCase key
`bestPractices`. -/
def rowFor (timestamp hash : String) (d : SiteData) (lh : Lighthouse) : List Cell :=
  [Cell.strCell timestamp,
   Cell.strCell ("\"" ++ siteUrlOf hash d ++ "\""),
   Cell.strCell hash,
   scoreCell (jsGet lh "performance"),
   scoreCell (jsGet lh "accessibility"),
   scoreCell (jsGet lh "bestPractices"),
   scoreCell (jsGet lh "seo")]

/-- The data rows `writeToCsv` emits: one per site whose `lighthouse`
field is present, in snapshot order. -/
def csvRows (timestamp : String) (snap : Snapshot) : List CsvLine :=
  snap.filterMap (fun p => (p.2.lighthouse).map (fun lh => CsvLine.row (rowFor timestamp p.1 p.2 lh)))

/-- `writeToCsv(newResultsData, csvPath)`: append (header when the file
does not yet exist, then the data rows) to the existing content; returns
the resulting file content. -/
def writeToCsv (timestamp : String) (snap : Snapshot) (file : Option (List CsvLine)) : List CsvLine :=
  (file.getD []) ++
  (match file with
   | none => [CsvLine.header headers]
   | some _ => []) ++
  csvRows timestamp snap

/-- The diagnostic entry the per-metric check produces (lines 155-179):
invalid score type, a regression (with the computed decrease percentage),
or OK. -/
inductive MetricEntry where
  | invalidType (metric : String)
  | regression (metric : String) (newScore oldScore decreasePercentage : ℚ)
  | ok (metric : String) (newScore oldScore : ℚ)
deriving DecidableEq, Repr

/-- The body of the `METRICS_TO_CHECK.forEach` callback for one metric:
validate both scores are numbers, then test
`newScore < oldScore * (1 - THRESHOLD_DECIMAL)`. -/
def checkMetric (thresholdDecimal : ℚ) (newLh oldLh : Lighthouse) (metric : String) : MetricEntry :=
  match jsGet newLh metric, jsGet oldLh metric with
  | some (JValue.num newScore), some (JValue.num oldScore) =>
    if newScore < oldScore * (1 - thresholdDecimal) then
      MetricEntry.regression metric newScore oldScore ((oldScore - newScore) / oldScore * 100)
    else
      MetricEntry.ok metric newScore oldScore
  | _, _ => MetricEntry.invalidType metric

/-- The per-site outcome of the comparison loop (lines 134-181). -/
inductive SiteEntry where
  | newSite (hash : String)
  | dataMissing (hash : String)
  | checked (hash : String) (entries : List MetricEntry)
deriving DecidableEq, Repr

/-- One iteration of the site loop: new site when absent from the old
snapshot, data missing when either side lacks a `lighthouse` object,
otherwise the tracked metrics are each checked. -/
def checkSite (thresholdDecimal : ℚ) (oldSnap : Snapshot) (hash : String) (d : SiteData) : SiteEntry :=
  match jsGet oldSnap hash with
  | none => SiteEntry.newSite hash
  | some od =>
    match d.lighthouse, od.lighthouse with
    | some newLh, some oldLh =>
      SiteEntry.checked hash (METRICS_TO_CHECK.map (checkMetric thresholdDecimal newLh oldLh))
    | _, _ => SiteEntry.dataMissing hash

/-- The full comparison pass over the new snapshot. -/
def evaluate (thresholdDecimal : ℚ) (newSnap oldSnap : Snapshot) : List SiteEntry :=
  newSnap.map (fun p => checkSite thresholdDecimal oldSnap p.1 p.2)

/-- Whether a metric entry is a regression diagnostic. -/
def metricEntryRegression : MetricEntry → Bool
  | MetricEntry.regression _ _ _ _ => true
  | _ => false

/-- Whether a site entry contains a regression diagnostic. -/
def siteEntryRegression : SiteEntry → Bool
  | SiteEntry.checked _ es => es.any metricEntryRegression
  | _ => false

/-- The `hasRegressions` flag accumulated over the whole run. -/
def hasRegressions (l : List SiteEntry) : Bool :=
  l.any siteEntryRegression

/-- The observable outcome of one run of the script: exit code, resulting
CSV file content (`none` when the file still does not exist), and the
comparison report (`none` when no comparison was performed). -/
structure RunResult where
  exitCode : Nat
  csv : Option (List CsvLine)
  report : Option (List SiteEntry)
deriving DecidableEq, Repr

/-- The script's top-level control flow: argument validation (exit 1),
load results (`oldLoad`/`newLoad` are the `loadJson` outcomes), fatal
exit 1 when the new results are missing, CSV write, no-baseline exit 0,
comparison, and the final verdict. -/
def runMain (thresholdDecimal : ℚ) (timestamp : String) (oldArg newArg : Option String)
    (oldLoad newLoad : Option Snapshot) (file : Option (List CsvLine)) : RunResult :=
  if !(argPresent oldArg) || !(argPresent newArg) then
    { exitCode := 1, csv := file, report := none }
  else
    match newLoad with
    | none => { exitCode := 1, csv := file, report := none }
    | some ns =>
      let file2 := some (writeToCsv timestamp ns file)
      match oldLoad with
      | none => { exitCode := 0, csv := file2, report := none }
      | some os =>
        let entries := evaluate thresholdDecimal ns os
        { exitCode := if hasRegressions entries then 1 else 0, csv := file2, report := some entries }

/-- Number of header lines in a CSV file content. -/
def headerCount (l : List CsvLine) : Nat :=
  l.countP (fun x => match x with | CsvLine.header _ => true | _ => false)

/-- Number of sites of a snapshot that have lighthouse data (hence get a
CSV row). -/
def sitesWithData (snap : Snapshot) : Nat :=
  (snap.filter (fun p => p.2.lighthouse.isSome)).length

/-- C1: for a compared (site, metric) pair with numeric scores and
threshold percent `t`, a REGRESSION is declared iff
`newScore < oldScore * (1 - t/100)` (strict); the boundary case is OK,
a score increase (with nonnegative threshold and score) is OK, and a
decrease within tolerance is OK. -/
theorem C1_regression_rule (t newScore oldScore : ℚ) (newLh oldLh : Lighthouse) (m : String)
    (hn : jsGet newLh m = some (JValue.num newScore))
    (ho : jsGet oldLh m = some (JValue.num oldScore)) :
    (checkMetric (t / 100) newLh oldLh m
        = MetricEntry.regression m newScore oldScore ((oldScore - newScore) / oldScore * 100)
      ↔ newScore < oldScore * (1 - t / 100))
    ∧ (newScore = oldScore * (1 - t / 100) →
        checkMetric (t / 100) newLh oldLh m = MetricEntry.ok m newScore oldScore)
    ∧ (0 ≤ t → 0 ≤ oldScore → oldScore ≤ newScore →
        checkMetric (t / 100) newLh oldLh m = MetricEntry.ok m newScore oldScore)
    ∧ (0 < oldScore → (oldScore - newScore) / oldScore * 100 ≤ t →
        checkMetric (t / 100) newLh oldLh m = MetricEntry.ok m newScore oldScore) := by
  have hcm : checkMetric (t / 100) newLh oldLh m =
      if newScore < oldScore * (1 - t / 100) then
        MetricEntry.regression m newScore oldScore ((oldScore - newScore) / oldScore * 100)
      else MetricEntry.ok m newScore oldScore := by
    simp [checkMetric, hn, ho]
  refine ⟨?_, ?_, ?_, ?_⟩
  · rw [hcm]
    constructor
    · intro hr
      by_contra hlt
      rw [if_neg hlt] at hr
      exact MetricEntry.noConfusion hr
    · intro hlt
      rw [if_pos hlt]
  · intro heq
    rw [hcm, if_neg (by rw [heq]; exact lt_irrefl _)]
  · intro ht hos hle
    rw [hcm, if_neg ?_]
    have h1 : oldScore * (1 - t / 100) ≤ oldScore := by nlinarith
    linarith
  · intro hop hdec
    rw [hcm, if_neg ?_]
    have h1 : (oldScore - newScore) / oldScore ≤ t / 100 := by linarith
    have h2 : oldScore - newScore ≤ t / 100 * oldScore := (div_le_iff₀ hop).mp h1
    nlinarith

/-- Witness for C1 at the spec's own scenario: old 0.85, new 0.75,
threshold 10% gives a regression, and old 0.90, new 0.82 is OK. -/
theorem C1_regression_rule_witness :
    checkMetric ((10 : ℚ) / 100)
        [("performance", JValue.num (3 / 4))] [("performance", JValue.num (17 / 20))] "performance"
      = MetricEntry.regression "performance" (3 / 4) (17 / 20) ((17 / 20 - 3 / 4) / (17 / 20) * 100)
    ∧ checkMetric ((10 : ℚ) / 100)
        [("accessibility", JValue.num (41 / 50))] [("accessibility", JValue.num (9 / 10))] "accessibility"
      = MetricEntry.ok "accessibility" (41 / 50) (9 / 10) :=
  ⟨(C1_regression_rule 10 (3 / 4) (17 / 20)
      [("performance", JValue.num (3 / 4))] [("performance", JValue.num (17 / 20))]
      "performance" rfl rfl).1.mpr (by norm_num),
   (C1_regression_rule 10 (41 / 50) (9 / 10)
      [("accessibility", JValue.num (41 / 50))] [("accessibility", JValue.num (9 / 10))]
      "accessibility" rfl rfl).2.2.2 (by norm_num) (by norm_num)⟩

/-- C9: with an old score of exactly 0 and a nonnegative new score, the
metric check returns OK: the regression branch, the only place the
division by `oldScore` occurs, is not taken. -/
theorem C9_zero_old_score (thresholdDecimal n : ℚ) (newLh oldLh : Lighthouse) (m : String)
    (hn : jsGet newLh m = some (JValue.num n))
    (ho : jsGet oldLh m = some (JValue.num 0))
    (hpos : 0 ≤ n) :
    checkMetric thresholdDecimal newLh oldLh m = MetricEntry.ok m n 0
    ∧ (∀ p : ℚ, checkMetric thresholdDecimal newLh oldLh m ≠ MetricEntry.regression m n 0 p) := by
  have hcm : checkMetric thresholdDecimal newLh oldLh m = MetricEntry.ok m n 0 := by
    simp only [checkMetric, hn, ho]
    rw [if_neg (by rw [zero_mul]; exact not_lt.mpr hpos)]
  exact ⟨hcm, fun p hp => by rw [hcm] at hp; exact MetricEntry.noConfusion hp⟩

/-- Witness for C9: new score 1/2 against old score 0 yields OK. -/
theorem C9_zero_old_score_witness :
    checkMetric (1 / 10) [("performance", JValue.num (1 / 2))] [("performance", JValue.num 0)] "performance"
      = MetricEntry.ok "performance" (1 / 2) 0 :=
  (C9_zero_old_score (1 / 10) (1 / 2)
      [("performance", JValue.num (1 / 2))] [("performance", JValue.num 0)]
      "performance" rfl rfl (by norm_num)).1

/-- C10: an environment value that parses to the integer 0 yields the
default threshold 10 (zero tolerance cannot be configured), while any
nonzero parse is taken as-is, and an absent value defaults to 10. -/
theorem C10_zero_threshold (s : String) (h : jsParseInt s = some 0) :
    regressionThresholdPercent (some s) = 10
    ∧ thresholdDecimalOf (some s) = 10 / 100
    ∧ (∀ (u : String) (n : Int), jsParseInt u = some n → n ≠ 0 →
        regressionThresholdPercent (some u) = n)
    ∧ regressionThresholdPercent none = 10 := by
  refine ⟨?_, ?_, ?_, rfl⟩
  · simp [regressionThresholdPercent, h]
  · simp [thresholdDecimalOf, regressionThresholdPercent, h]
  · intro u n hu hn
    simp [regressionThresholdPercent, hu, hn]

/-- Witness for C10: the string "0" parses to 0 and the effective
threshold is 10. -/
theorem C10_zero_threshold_witness :
    regressionThresholdPercent (some "0") = 10 :=
  (C10_zero_threshold "0" (by decide)).1

/-- Whether an optional JSON value is a number (`typeof x === 'number'`). -/
def isNum : Option JValue → Bool
  | some (JValue.num _) => true
  | _ => false

/-- C8: when either side of a tracked metric is not a number, the check
records an invalid-type warning, such an entry never counts as a
regression, every tracked metric of a checked site is still evaluated
independently, and a run whose evaluation produced no regression exits 0. -/
theorem C8_invalid_score (thresholdDecimal : ℚ) (newLh oldLh : Lighthouse) (m : String)
    (h : isNum (jsGet newLh m) = false ∨ isNum (jsGet oldLh m) = false) :
    checkMetric thresholdDecimal newLh oldLh m = MetricEntry.invalidType m
    ∧ metricEntryRegression (checkMetric thresholdDecimal newLh oldLh m) = false
    ∧ (∀ (oldSnap : Snapshot) (hash : String) (d od : SiteData) (nl ol : Lighthouse),
        jsGet oldSnap hash = some od → d.lighthouse = some nl → od.lighthouse = some ol →
        checkSite thresholdDecimal oldSnap hash d
          = SiteEntry.checked hash (METRICS_TO_CHECK.map (checkMetric thresholdDecimal nl ol)))
    ∧ (∀ (ts : String) (oa na : Option String) (ns os : Snapshot) (f : Option (List CsvLine)),
        argPresent oa = true → argPresent na = true →
        hasRegressions (evaluate thresholdDecimal ns os) = false →
        (runMain thresholdDecimal ts oa na (some os) (some ns) f).exitCode = 0) := by
  have hinv : checkMetric thresholdDecimal newLh oldLh m = MetricEntry.invalidType m := by
    rcases h with h | h
    · unfold checkMetric
      match hx : jsGet newLh m, hy : jsGet oldLh m with
      | some (JValue.num q), _ => rw [hx] at h; exact absurd h (by simp [isNum])
      | some (JValue.str s), _ => rfl
      | none, _ => rfl
    · unfold checkMetric
      match hx : jsGet newLh m, hy : jsGet oldLh m with
      | _, some (JValue.num q) => rw [hy] at h; exact absurd h (by simp [isNum])
      | some (JValue.num q), some (JValue.str s) => rfl
      | some (JValue.num q), none => rfl
      | some (JValue.str s), _ => rfl
      | none, _ => rfl
  refine ⟨hinv, by rw [hinv]; rfl, ?_, ?_⟩
  · intro oldSnap hash d od nl ol hod hnl hol
    simp [checkSite, hod, hnl, hol]
  · intro ts oa na ns os f hoa hna hreg
    unfold runMain
    rw [hoa, hna]
    simp [hreg]

/-- Witness for C8: a string score on the new side yields an invalid-type
entry, not a regression. -/
theorem C8_invalid_score_witness :
    checkMetric (1 / 10)
        [("performance", JValue.str "bad")] [("performance", JValue.num (1 / 2))] "performance"
      = MetricEntry.invalidType "performance"
    ∧ metricEntryRegression (checkMetric (1 / 10)
        [("performance", JValue.str "bad")] [("performance", JValue.num (1 / 2))] "performance")
      = false :=
  ⟨(C8_invalid_score (1 / 10)
      [("performance", JValue.str "bad")] [("performance", JValue.num (1 / 2))]
      "performance" (Or.inl rfl)).1,
   (C8_invalid_score (1 / 10)
      [("performance", JValue.str "bad")] [("performance", JValue.num (1 / 2))]
      "performance" (Or.inl rfl)).2.1⟩

/-- C2: the exit code is 1 exactly when a path argument is missing, the
new results could not be loaded, or a regression was detected; it is 0
in every other run (in particular it is always 0 or 1, so the absent
baseline yields 0). -/
theorem C2_exit_code (thresholdDecimal : ℚ) (ts : String) (oldArg newArg : Option String)
    (oldLoad newLoad : Option Snapshot) (file : Option (List CsvLine)) :
    ((runMain thresholdDecimal ts oldArg newArg oldLoad newLoad file).exitCode = 1
      ↔ (argPresent oldArg = false ∨ argPresent newArg = false ∨ newLoad = none
          ∨ ∃ ns os, newLoad = some ns ∧ oldLoad = some os
              ∧ hasRegressions (evaluate thresholdDecimal ns os) = true))
    ∧ ((runMain thresholdDecimal ts oldArg newArg oldLoad newLoad file).exitCode = 0
        ∨ (runMain thresholdDecimal ts oldArg newArg oldLoad newLoad file).exitCode = 1) := by
  unfold runMain
  cases hoa : argPresent oldArg <;> cases hna : argPresent newArg <;>
    cases hnl : newLoad <;> cases hol : oldLoad <;> simp_all

/-- C5: with valid arguments, a loadable new document and no baseline,
the run exits 0, performs no comparison, and still appends the new
snapshot's rows to the log. -/
theorem C5_no_baseline (thresholdDecimal : ℚ) (ts : String) (oldArg newArg : Option String)
    (ns : Snapshot) (file : Option (List CsvLine))
    (hoa : argPresent oldArg = true) (hna : argPresent newArg = true) :
    (runMain thresholdDecimal ts oldArg newArg none (some ns) file).exitCode = 0
    ∧ (runMain thresholdDecimal ts oldArg newArg none (some ns) file).report = none
    ∧ (runMain thresholdDecimal ts oldArg newArg none (some ns) file).csv
        = some (writeToCsv ts ns file)
    ∧ csvRows ts ns <:+ writeToCsv ts ns file := by
  unfold runMain
  rw [hoa, hna]
  exact ⟨rfl, rfl, rfl, List.suffix_append _ _⟩

/-- Witness for C5 on a one-site snapshot and no pre-existing log file. -/
theorem C5_no_baseline_witness :
    (runMain (1 / 10) "T" (some "old.json") (some "new.json") none
        (some [("h1", { url := some "https://example.org/",
                        lighthouse := some [("performance", JValue.num (1 / 2))] })]) none).exitCode = 0
    ∧ (runMain (1 / 10) "T" (some "old.json") (some "new.json") none
        (some [("h1", { url := some "https://example.org/",
                        lighthouse := some [("performance", JValue.num (1 / 2))] })]) none).report = none :=
  ⟨(C5_no_baseline (1 / 10) "T" (some "old.json") (some "new.json")
      [("h1", { url := some "https://example.org/",
                lighthouse := some [("performance", JValue.num (1 / 2))] })] none rfl rfl).1,
   (C5_no_baseline (1 / 10) "T" (some "old.json") (some "new.json")
      [("h1", { url := some "https://example.org/",
                lighthouse := some [("performance", JValue.num (1 / 2))] })] none rfl rfl).2.1⟩

/-- C6: when the new results document cannot be loaded, the run exits 1
and the metrics log is left exactly as it was: no header and no rows are
written, and no comparison is performed. -/
theorem C6_fatal_new_results (thresholdDecimal : ℚ) (ts : String) (oldArg newArg : Option String)
    (oldLoad : Option Snapshot) (file : Option (List CsvLine)) :
    (runMain thresholdDecimal ts oldArg newArg oldLoad none file).exitCode = 1
    ∧ (runMain thresholdDecimal ts oldArg newArg oldLoad none file).csv = file
    ∧ (runMain thresholdDecimal ts oldArg newArg oldLoad none file).report = none := by
  unfold runMain
  cases hoa : argPresent oldArg <;> cases hna : argPresent newArg <;> simp

/-- The data rows contain no header line. -/
theorem csvRows_headerCount (ts : String) (snap : Snapshot) :
    headerCount (csvRows ts snap) = 0 := by
  induction snap with
  | nil => rfl
  | cons p rest ih =>
    cases h : p.2.lighthouse with
    | none => simpa [csvRows, List.filterMap_cons, h] using ih
    | some lh => simpa [csvRows, List.filterMap_cons, h, headerCount, List.countP_cons] using ih

/-- One data row per site with lighthouse data. -/
theorem csvRows_length (ts : String) (snap : Snapshot) :
    (csvRows ts snap).length = sitesWithData snap := by
  induction snap with
  | nil => rfl
  | cons p rest ih =>
    cases h : p.2.lighthouse with
    | none => simpa [csvRows, sitesWithData, List.filterMap_cons, List.filter_cons, h] using ih
    | some lh => simpa [csvRows, sitesWithData, List.filterMap_cons, List.filter_cons, h] using ih

/-- C7: persistence is append-only and header-once: a call on an existing
file appends the data rows after the existing content without adding a
header, each call appends exactly one row per site with lighthouse data,
the first call on a missing file writes the header once, and two calls
with the same snapshot yield one header plus two rows per qualifying
site. -/
theorem C7_persist_append_only (ts1 ts2 : String) (snap : Snapshot) (c : List CsvLine) :
    writeToCsv ts2 snap (some c) = c ++ csvRows ts2 snap
    ∧ (csvRows ts2 snap).length = sitesWithData snap
    ∧ headerCount (writeToCsv ts2 snap (some c)) = headerCount c
    ∧ writeToCsv ts1 snap none = CsvLine.header headers :: csvRows ts1 snap
    ∧ headerCount (writeToCsv ts2 snap (some (writeToCsv ts1 snap none))) = 1
    ∧ (writeToCsv ts2 snap (some (writeToCsv ts1 snap none))).length
        = 1 + 2 * sitesWithData snap := by
  have happ : ∀ c', writeToCsv ts2 snap (some c') = c' ++ csvRows ts2 snap := by
    intro c'
    simp [writeToCsv]
  have hnone : writeToCsv ts1 snap none = CsvLine.header headers :: csvRows ts1 snap := by
    simp [writeToCsv]
  have hcount : ∀ c', headerCount (writeToCsv ts2 snap (some c')) = headerCount c' := by
    intro c'
    rw [happ c']
    unfold headerCount
    rw [List.countP_append]
    have := csvRows_headerCount ts2 snap
    unfold headerCount at this
    omega
  refine ⟨happ c, csvRows_length ts2 snap, hcount c, hnone, ?_, ?_⟩
  · rw [hcount _, hnone]
    unfold headerCount
    rw [List.countP_cons]
    have := csvRows_headerCount ts1 snap
    unfold headerCount at this
    simp [this]
  · rw [happ _, hnone]
    simp [csvRows_length]
    omega

/-- A fixture: lighthouse data stored under the spec's hyphenated key. -/
def lhHyphen : Lighthouse := [("best-practices", JValue.num (1 / 2))]

/-- A fixture site holding `lhHyphen`. -/
def siteHyphen : SiteData := { url := some "https://example.org/", lighthouse := some lhHyphen }

/-- C3 counterexample: a site whose scores mapping stores the metric
under the hyphenated name `best-practices` with numeric value 1/2 gets a
row whose best-practices column (like every other metric column) is the
empty cell, not 1/2: the script reads the camelCase key `bestPractices`. -/
theorem C3_counterexample :
    jsGet lhHyphen "best-practices" = some (JValue.num (1 / 2))
    ∧ csvRows "T" [("site1", siteHyphen)]
        = [CsvLine.row
            [Cell.strCell "T", Cell.strCell "\"https://example.org/\"", Cell.strCell "site1",
             Cell.strCell "", Cell.strCell "", Cell.strCell "", Cell.strCell ""]]
    ∧ Cell.strCell "" ≠ Cell.numCell (1 / 2) := by
  refine ⟨rfl, by decide, by decide⟩

/-- C3 amended: the best-practices column of a persisted row records the
numeric value stored under the camelCase key `bestPractices` (when
nonzero); the header row fixes that column's name as `best-practices`
at the same position. -/
theorem C3_best_practices_column (ts hash : String) (d : SiteData) (lh : Lighthouse) (v : ℚ)
    (hlh : d.lighthouse = some lh) (hv : jsGet lh "bestPractices" = some (JValue.num v))
    (hnz : v ≠ 0) :
    csvRows ts [(hash, d)] = [CsvLine.row (rowFor ts hash d lh)]
    ∧ rowFor ts hash d lh
        = [Cell.strCell ts, Cell.strCell ("\"" ++ siteUrlOf hash d ++ "\""), Cell.strCell hash,
           scoreCell (jsGet lh "performance"), scoreCell (jsGet lh "accessibility"),
           Cell.numCell v, scoreCell (jsGet lh "seo")]
    ∧ headers = ["timestamp", "site_url", "site_hash", "performance", "accessibility",
                 "best-practices", "seo"] := by
  refine ⟨?_, ?_, rfl⟩
  · simp [csvRows, hlh]
  · simp [rowFor, hv, scoreCell, hnz]

/-- A fixture: lighthouse data stored under the script's camelCase key. -/
def lhCamel : Lighthouse := [("bestPractices", JValue.num (1 / 2))]

/-- Witness for the amended C3: a camelCase `bestPractices` value 1/2 is
recorded as the number 1/2 in the best-practices column. -/
theorem C3_best_practices_column_witness :
    rowFor "T" "site1" { url := some "https://example.org/", lighthouse := some lhCamel } lhCamel
      = [Cell.strCell "T", Cell.strCell "\"https://example.org/\"", Cell.strCell "site1",
         scoreCell (jsGet lhCamel "performance"), scoreCell (jsGet lhCamel "accessibility"),
         Cell.numCell (1 / 2), scoreCell (jsGet lhCamel "seo")] :=
  (C3_best_practices_column "T" "site1"
    { url := some "https://example.org/", lighthouse := some lhCamel } lhCamel (1 / 2)
    rfl rfl (by norm_num)).2.1

/-- A fixture: a present performance score of exactly 0. -/
def lhZero : Lighthouse := [("performance", JValue.num 0)]

/-- C4 counterexample: a present performance score of exactly 0 is
rendered as the empty cell, indistinguishable from an absent metric. -/
theorem C4_counterexample :
    jsGet lhZero "performance" = some (JValue.num 0)
    ∧ scoreCell (jsGet lhZero "performance") = Cell.strCell ""
    ∧ rowFor "T" "s" { url := none, lighthouse := some lhZero } lhZero
        = [Cell.strCell "T", Cell.strCell "\"s\"", Cell.strCell "s",
           Cell.strCell "", Cell.strCell "", Cell.strCell "", Cell.strCell ""]
    ∧ Cell.strCell "" ≠ Cell.numCell 0 := by
  refine ⟨by decide, by decide, by decide, by decide⟩

/-- C4 amended: each metric column holds `scoreCell` of the metric's key;
a present nonzero numeric score is recorded as that number, an absent
metric as the empty string (never as a number), and a present score of
exactly 0 is also rendered empty, conflated with absent by the `|| ''`
guard. -/
theorem C4_metric_columns (ts hash : String) (d : SiteData) (lh : Lighthouse) (v : ℚ)
    (hnz : v ≠ 0) :
    rowFor ts hash d lh
      = [Cell.strCell ts, Cell.strCell ("\"" ++ siteUrlOf hash d ++ "\""), Cell.strCell hash,
         scoreCell (jsGet lh "performance"), scoreCell (jsGet lh "accessibility"),
         scoreCell (jsGet lh "bestPractices"), scoreCell (jsGet lh "seo")]
    ∧ scoreCell (some (JValue.num v)) = Cell.numCell v
    ∧ scoreCell none = Cell.strCell ""
    ∧ scoreCell (some (JValue.num 0)) = Cell.strCell ""
    ∧ (∀ w : ℚ, scoreCell none ≠ Cell.numCell w) := by
  refine ⟨rfl, by simp [scoreCell, hnz], rfl, by simp [scoreCell], fun w => by simp [scoreCell]⟩

/-- Witness for the amended C4: score 1/2 is recorded as 1/2, an absent
metric as the empty string. -/
theorem C4_metric_columns_witness :
    scoreCell (some (JValue.num (1 / 2))) = Cell.numCell (1 / 2)
    ∧ scoreCell none = Cell.strCell "" :=
  ⟨(C4_metric_columns "T" "s" { url := none, lighthouse := none } [] (1 / 2) (by norm_num)).2.1,
   (C4_metric_columns "T" "s" { url := none, lighthouse := none } [] (1 / 2) (by norm_num)).2.2.1⟩
